import Mathlib

/-!
Shallow embedding of `src/frontend/static/js/main.js` (photo-sharing page UI).

The file has two IIFE controllers:

* an upload-preview controller managing one transient object URL
  (`URL.createObjectURL` / `URL.revokeObjectURL`), and
* an image-viewer controller maintaining a 2D zoom/pan transform
  (`scale`, `originX/Y`, `posX/Y`) plus drag and pinch bookkeeping
  (`dragging`, `startX/Y`, `pinch.active/dist/midX/midY`).

JavaScript numbers are modelled as exact rationals (ℚ): every quantity the
handlers compute is built from the event coordinates by field operations and
min/max, and every claim under study is about that arithmetic, not about
binary rounding.  The literals 1.2, 0.9, 1.1 become 6/5, 9/10, 11/10.
`Math.hypot` (used only to measure the inter-touch distance) returns a
nonnegative real; the touch handlers consume it only as a measured number, so
the embedding passes the measured distance `d` as an event parameter.
-/

namespace Birbs

/-- Mutable state of the image-viewer controller (`main.js` lines 60–64,
94–95, 134): transform fields, drag bookkeeping, pinch bookkeeping. -/
structure VState where
  scale : ℚ
  originX : ℚ
  originY : ℚ
  posX : ℚ
  posY : ℚ
  dragging : Bool
  startX : ℚ
  startY : ℚ
  pinchActive : Bool
  pinchDist : ℚ
  pinchMidX : ℚ
  pinchMidY : ℚ
  deriving Repr, DecidableEq

/-- Module-load state: `scale = 1`, all coordinates 0, no drag, no pinch. -/
def initState : VState :=
  ⟨1, 0, 0, 0, 0, false, 0, 0, false, 0, 0, 0⟩

/-- `resetTransform` (lines 72–79): identity transform, origin at the centre
of the image element (`clientWidth / 2`, `clientHeight / 2`). -/
def resetTransform (w h : ℚ) (s : VState) : VState :=
  { s with scale := 1, posX := 0, posY := 0, originX := w / 2, originY := h / 2 }

/-- `Math.min` on the (NaN-free) rational model. -/
def mathMin (a b : ℚ) : ℚ := if a ≤ b then a else b

/-- `Math.max` on the (NaN-free) rational model. -/
def mathMax (a b : ℚ) : ℚ := if a ≤ b then b else a

/-- `Math.min(Math.max(x, 1), 6)`, the scale clamp used by wheel and pinch. -/
def clampScale (x : ℚ) : ℚ := mathMin (mathMax x 1) 6

/-- Wheel factor (line 122): `e.deltaY > 0 ? 0.9 : 1.1`. -/
def wheelDelta (dy : ℚ) : ℚ := if dy > 0 then 9/10 else 11/10

/-- `zoomInBtn` click (lines 82–85): `scale = Math.min(scale * 1.2, 6)`. -/
def zoomInClick (s : VState) : VState :=
  { s with scale := mathMin (s.scale * (6/5)) 6 }

/-- `zoomOutBtn` click (lines 86–90): `scale = Math.max(scale / 1.2, 1)`,
and if the result is exactly 1 the translation is zeroed. -/
def zoomOutClick (s : VState) : VState :=
  if mathMax (s.scale / (6/5)) 1 = 1 then
    { s with scale := mathMax (s.scale / (6/5)) 1, posX := 0, posY := 0 }
  else
    { s with scale := mathMax (s.scale / (6/5)) 1 }

/-- `mousedown` on the viewer image (lines 97–104): ignored unless
`scale > 1`; otherwise starts a drag anchored at pointer − translation. -/
def onMouseDown (x y : ℚ) (s : VState) : VState :=
  if s.scale ≤ 1 then s
  else { s with dragging := true, startX := x - s.posX, startY := y - s.posY }

/-- `mousemove` on the window (lines 105–110): while dragging, translation
becomes pointer − anchor. -/
def onMouseMove (x y : ℚ) (s : VState) : VState :=
  if s.dragging then { s with posX := x - s.startX, posY := y - s.startY } else s

/-- `mouseup` on the window (lines 111–114): clears the dragging flag. -/
def onMouseUp (s : VState) : VState := { s with dragging := false }

/-- `wheel` on the zoom wrapper (lines 117–131).  Arguments: cursor client
coordinates `cx cy`, image rect offsets `rl rt`, and `dy = e.deltaY`.
Sets the origin to the cursor position relative to the image, clamps the new
scale, rescales the translation by `newScale / scale` around the new origin,
and zeroes the translation when the resulting scale is exactly 1. -/
def onWheel (cx cy rl rt dy : ℚ) (s : VState) : VState :=
  let ox := cx - rl
  let oy := cy - rt
  let ns := clampScale (s.scale * wheelDelta dy)
  let factor := ns / s.scale
  if ns = 1 then
    { s with originX := ox, originY := oy, posX := 0, posY := 0, scale := ns }
  else
    { s with originX := ox, originY := oy,
             posX := (s.posX - ox) * factor + ox,
             posY := (s.posY - oy) * factor + oy,
             scale := ns }

/-- `touchstart` with two touches (lines 137–144): activates the pinch,
records the measured inter-touch distance `d` (the `Math.hypot` result) and
the touch midpoint relative to the image, and sets the origin there. -/
def onTouchStart2 (d t1x t1y t2x t2y rl rt : ℚ) (s : VState) : VState :=
  { s with pinchActive := true, pinchDist := d,
           pinchMidX := (t1x + t2x) / 2 - rl,
           pinchMidY := (t1y + t2y) / 2 - rt,
           originX := (t1x + t2x) / 2 - rl,
           originY := (t1y + t2y) / 2 - rt }

/-- `touchstart` with one touch (lines 145–152): when `scale > 1`, starts a
drag anchored at touch − translation. -/
def onTouchStart1 (x y : ℚ) (s : VState) : VState :=
  if 1 < s.scale then
    { s with dragging := true, startX := x - s.posX, startY := y - s.posY }
  else s

/-- `touchmove` with two touches (lines 156–176): if the pinch is active,
computes `factor = d / pinch.dist`, clamps the new scale, moves the origin to
the current midpoint, rescales the translation by `newScale / scale` around
it, zeroes the translation at scale 1, and stores `d` as the new distance. -/
def onTouchMove2 (d t1x t1y t2x t2y rl rt : ℚ) (s : VState) : VState :=
  if s.pinchActive then
    let ns := clampScale (s.scale * (d / s.pinchDist))
    let mx := (t1x + t2x) / 2 - rl
    let my := (t1y + t2y) / 2 - rt
    let sf := ns / s.scale
    if ns = 1 then
      { s with originX := mx, originY := my, posX := 0, posY := 0,
               scale := ns, pinchDist := d }
    else
      { s with originX := mx, originY := my,
               posX := (s.posX - mx) * sf + mx,
               posY := (s.posY - my) * sf + my,
               scale := ns, pinchDist := d }
  else s

/-- `touchmove` with one touch (lines 177–182): while dragging, translation
becomes touch − anchor. -/
def onTouchMove1 (x y : ℚ) (s : VState) : VState :=
  if s.dragging then { s with posX := x - s.startX, posY := y - s.startY } else s

/-- `touchend` (lines 185–188): clears the pinch and dragging flags. -/
def onTouchEnd (s : VState) : VState :=
  { s with pinchActive := false, dragging := false }

/-- Viewer events, each carrying the coordinates its handler reads.
`openImg`, `zoomReset` and `closeViewer` carry the image client dimensions
used by `resetTransform`; `wheel` carries cursor and rect coordinates plus
`deltaY`; the touch events carry the measured distance, raw touch
coordinates and rect offsets. -/
inductive Op where
  | openImg (w h : ℚ)
  | zoomIn
  | zoomOut
  | zoomReset (w h : ℚ)
  | mouseDown (x y : ℚ)
  | mouseMove (x y : ℚ)
  | mouseUp
  | wheel (cx cy rl rt dy : ℚ)
  | pinchStart (d t1x t1y t2x t2y rl rt : ℚ)
  | dragTouchStart (x y : ℚ)
  | pinchMove (d t1x t1y t2x t2y rl rt : ℚ)
  | dragTouchMove (x y : ℚ)
  | touchEnd
  | closeViewer (w h : ℚ)
  deriving Repr, DecidableEq

/-- One handler invocation of the viewer controller. -/
def step (s : VState) : Op → VState
  | .openImg w h => resetTransform w h s
  | .zoomIn => zoomInClick s
  | .zoomOut => zoomOutClick s
  | .zoomReset w h => resetTransform w h s
  | .mouseDown x y => onMouseDown x y s
  | .mouseMove x y => onMouseMove x y s
  | .mouseUp => onMouseUp s
  | .wheel cx cy rl rt dy => onWheel cx cy rl rt dy s
  | .pinchStart d t1x t1y t2x t2y rl rt => onTouchStart2 d t1x t1y t2x t2y rl rt s
  | .dragTouchStart x y => onTouchStart1 x y s
  | .pinchMove d t1x t1y t2x t2y rl rt => onTouchMove2 d t1x t1y t2x t2y rl rt s
  | .dragTouchMove x y => onTouchMove1 x y s
  | .touchEnd => onTouchEnd s
  | .closeViewer w h => resetTransform w h s

/-- Run a sequence of viewer events from a given state. -/
def runFrom (s : VState) (ops : List Op) : VState := ops.foldl step s

/-- Run a sequence of viewer events from the module-load state. -/
def run (ops : List Op) : VState := runFrom initState ops

/-- The operations the spec calls scale-mutating: the two zoom buttons, the
wheel handler and the two-finger pinch move. -/
def ScaleMutating : Op → Prop
  | .zoomIn => True
  | .zoomOut => True
  | .wheel _ _ _ _ _ => True
  | .pinchMove _ _ _ _ _ _ _ => True
  | _ => False

/-- A pointer-move event is safe when no drag is in progress at scale 1;
every other event is always safe.  This is the side condition under which
the unzoomed-centred invariant survives (see the counterexample trace). -/
def MoveSafe (s : VState) : Op → Prop
  | .mouseMove _ _ => s.dragging = true → s.scale ≠ 1
  | .dragTouchMove _ _ => s.dragging = true → s.scale ≠ 1
  | _ => True

/-- Event sequences all of whose pointer-move events are safe in the state
where they are processed. -/
inductive SafeTrace : VState → List Op → Prop where
  | nil (s : VState) : SafeTrace s []
  | cons (s : VState) (op : Op) (ops : List Op) :
      MoveSafe s op → SafeTrace (step s op) ops → SafeTrace s (op :: ops)

/-- Invariant: the scale is at least 1, and at scale exactly 1 the
translation is zero. -/
def GoodState (s : VState) : Prop :=
  1 ≤ s.scale ∧ (s.scale = 1 → s.posX = 0 ∧ s.posY = 0)

/-- The translation-rescaling formula of the wheel and pinch handlers
(lines 126–127 and 169–170): `pos' = (pos - origin) * factor + origin`
with `factor = newScale / scale`, applied to one coordinate axis. -/
def rescaleCoord (pos origin scale newScale : ℚ) : ℚ :=
  (pos - origin) * (newScale / scale) + origin

/-- Standard CSS semantics of `transform-origin: o; transform:
translate(p) scale(k)` on one axis: the content point `x` is scaled about
`o` and then translated, landing at screen offset `p + (o + k * (x - o))`.
This is the external browser behaviour the controller drives. -/
def cssScreenPos (origin pos scale x : ℚ) : ℚ :=
  pos + (origin + scale * (x - origin))

/-- Screen map of `translate(p) scale(k)` taken about the corner of the
element itself (no origin conjugation): content point `x` lands at
`p + k * x`.  Under this map the rescale formula of the handlers keeps the
screen point at the transform origin fixed. -/
def plainScreenPos (pos scale x : ℚ) : ℚ := pos + scale * x

/-- The wheel behaviour exactly as claim C7 words it: factor 1.1 when the
delta sign is negative and 0.9 otherwise (so a zero delta zooms out). -/
def specWheelClaimed (cx cy rl rt dy : ℚ) (s : VState) : VState :=
  let ox := cx - rl
  let oy := cy - rt
  let ns := clampScale (s.scale * (if dy < 0 then 11/10 else 9/10))
  let factor := ns / s.scale
  if ns = 1 then
    { s with originX := ox, originY := oy, posX := 0, posY := 0, scale := ns }
  else
    { s with originX := ox, originY := oy,
             posX := (s.posX - ox) * factor + ox,
             posY := (s.posY - oy) * factor + oy,
             scale := ns }

/-- The wheel behaviour as claim C7 amended: factor 0.9 when the delta sign
is positive and 1.1 otherwise (a zero delta zooms in, as the code does). -/
def specWheelAmended (cx cy rl rt dy : ℚ) (s : VState) : VState :=
  let ox := cx - rl
  let oy := cy - rt
  let ns := clampScale (s.scale * (if 0 < dy then 9/10 else 11/10))
  let factor := ns / s.scale
  if ns = 1 then
    { s with originX := ox, originY := oy, posX := 0, posY := 0, scale := ns }
  else
    { s with originX := ox, originY := oy,
             posX := (s.posX - ox) * factor + ox,
             posY := (s.posY - oy) * factor + oy,
             scale := ns }

/-- Trace exhibiting a drag that survives a wheel zoom-out to scale 1:
open, zoom in to 6/5, press the mouse at (3,4), two zoom-out wheel steps
(6/5 → 27/25 → 1), then move the mouse to (10,10). -/
def c1Trace : List Op :=
  [Op.openImg 100 100, Op.zoomIn, Op.mouseDown 3 4,
   Op.wheel 0 0 0 0 1, Op.wheel 0 0 0 0 1, Op.mouseMove 10 10]

/-- The state of the example in claim C5: scale 2, translation (50, 50). -/
def c5State : VState := { initState with scale := 2, posX := 50, posY := 50 }

/-- Trace for claim C6: open, zoom in, pinch from distance 10 to distance 20
(scale 6/5 → 12/5), lift a finger (touchend), then move the remaining
finger to (30, 40). -/
def c6Trace : List Op :=
  [Op.openImg 100 100, Op.zoomIn, Op.pinchStart 10 0 0 0 0 0 0,
   Op.pinchMove 20 0 0 0 0 0 0, Op.touchEnd, Op.dragTouchMove 30 40]

/-- Concrete zoomed state used to witness the amended claim C6. -/
def c6WitState : VState :=
  ⟨2, 0, 0, 5, 5, false, 0, 0, false, 0, 0, 0⟩

/-- State of the upload-preview controller.  Object URLs are numbered in
creation order; `liveUrls` lists the created-and-not-yet-revoked ones,
newest first.  `imgSrc` is the `src` attribute of the preview image. -/
structure UState where
  liveUrls : List ℕ
  nextUrl : ℕ
  imgSrc : Option ℕ
  previewHidden : Bool
  deriving Repr, DecidableEq

/-- Upload controller state at module load: no URL created, preview hidden. -/
def initUpload : UState := ⟨[], 0, none, true⟩

/-- The `change` handler of the file input (lines 9–19).  With a file:
creates a fresh object URL, assigns it to the image, reveals the preview.
Without a file: hides the preview and clears the image source (no revoke). -/
def onChange (hasFile : Bool) (s : UState) : UState :=
  if hasFile then
    { s with liveUrls := s.nextUrl :: s.liveUrls, imgSrc := some s.nextUrl,
             nextUrl := s.nextUrl + 1, previewHidden := false }
  else
    { s with previewHidden := true, imgSrc := none }

/-- The `hidden.bs.modal` handler of the upload dialog (lines 24–29):
revokes the URL currently assigned to the image, if any, then clears the
source and hides the preview. -/
def onUploadClose (s : UState) : UState :=
  { s with liveUrls := match s.imgSrc with
             | some u => s.liveUrls.erase u
             | none => s.liveUrls,
           imgSrc := none, previewHidden := true }

/-- Events of the upload-preview controller. -/
inductive UEvent where
  | selectFile
  | clearFile
  | closeUpload
  deriving Repr, DecidableEq

/-- One handler invocation of the upload-preview controller. -/
def ustep (s : UState) : UEvent → UState
  | .selectFile => onChange true s
  | .clearFile => onChange false s
  | .closeUpload => onUploadClose s

/-- Run a sequence of upload events from the module-load state. -/
def urun (es : List UEvent) : UState := es.foldl ustep initUpload

/-- Failure raised by touching a missing DOM element. -/
inductive DomErr where
  | nullAccess
  deriving Repr, DecidableEq

/-- Listeners the upload-preview controller can register. -/
inductive UploadListener where
  | inputChange
  | uploadModalHidden
  deriving Repr, DecidableEq

/-- Listeners the image-viewer controller can register. -/
inductive ViewerListener where
  | docClick
  | zoomInClick
  | zoomOutClick
  | zoomResetClick
  | imgMouseDown
  | winMouseMove
  | winMouseUp
  | wrapWheel
  | wrapTouchStart
  | wrapTouchMove
  | wrapTouchEnd
  | viewerModalHidden
  deriving Repr, DecidableEq

/-- `el.addEventListener(...)`: throws when the element is missing. -/
def addOn {α : Type} (present : Bool) (l : α) : Except DomErr (List α) :=
  if present then .ok [l] else .error .nullAccess

/-- Whether an initialisation ran to completion without throwing. -/
def noThrow {ε α : Type} : Except ε α → Bool
  | .ok _ => true
  | .error _ => false

/-- The listeners an initialisation managed to register (none on a throw). -/
def registered {ε α : Type} : Except ε (List α) → List α
  | .ok l => l
  | .error _ => []

/-- Initialisation of the upload-preview controller (lines 2–31): early
return when the input, wrapper or image is missing; otherwise registers the
change listener and, when the upload dialog exists, its hidden listener. -/
def uploadControllerInit (input wrap img uploadModal : Bool) :
    Except DomErr (List UploadListener) :=
  if !input || !wrap || !img then .ok []
  else do
    let a ← addOn input .inputChange
    let b ← if uploadModal then addOn uploadModal .uploadModalHidden
            else pure []
    pure (a ++ b)

/-- Initialisation of the image-viewer controller (lines 34–198): early
return when the modal, viewer image or zoom wrapper is missing; the three
zoom buttons are optional (`?.` registration); all other listeners attach to
elements already checked. -/
def viewerControllerInit (modalEl vimg zwrap zin zout zreset : Bool) :
    Except DomErr (List ViewerListener) :=
  if !modalEl || !vimg || !zwrap then .ok []
  else do
    let c ← pure [ViewerListener.docClick]
    let a ← if zin then addOn zin .zoomInClick else pure []
    let b ← if zout then addOn zout .zoomOutClick else pure []
    let r ← if zreset then addOn zreset .zoomResetClick else pure []
    let md ← addOn vimg .imgMouseDown
    let mm ← pure [ViewerListener.winMouseMove]
    let mu ← pure [ViewerListener.winMouseUp]
    let wh ← addOn zwrap .wrapWheel
    let ts ← addOn zwrap .wrapTouchStart
    let tm ← addOn zwrap .wrapTouchMove
    let te ← addOn zwrap .wrapTouchEnd
    let vh ← addOn modalEl .viewerModalHidden
    pure (c ++ a ++ b ++ r ++ md ++ mm ++ mu ++ wh ++ ts ++ tm ++ te ++ vh)

end Birbs

namespace Birbs

/-! ### Basic lemmas about the embedded arithmetic -/

theorem mathMin_eq (a b : ℚ) : mathMin a b = min a b := by
  rw [mathMin, min_def]

theorem mathMax_eq (a b : ℚ) : mathMax a b = max a b := by
  rw [mathMax, max_def]

theorem one_le_clampScale (x : ℚ) : 1 ≤ clampScale x := by
  rw [clampScale, mathMin_eq, mathMax_eq]
  exact le_min (le_max_right x 1) (by norm_num)

theorem clampScale_le_six (x : ℚ) : clampScale x ≤ 6 := by
  rw [clampScale, mathMin_eq]
  exact min_le_right _ _

/-! ### Scale bounds along every run -/

/-- Reachable-scale invariant: the scale stays inside `[1, 6]`. -/
def ScaleBounded (s : VState) : Prop := 1 ≤ s.scale ∧ s.scale ≤ 6

theorem step_scaleBounded (s : VState) (op : Op) (h : ScaleBounded s) :
    ScaleBounded (step s op) := by
  obtain ⟨h1, h6⟩ := h
  cases op with
  | openImg w hh => exact ⟨le_refl 1, (by norm_num : (1:ℚ) ≤ 6)⟩
  | zoomReset w hh => exact ⟨le_refl 1, (by norm_num : (1:ℚ) ≤ 6)⟩
  | closeViewer w hh => exact ⟨le_refl 1, (by norm_num : (1:ℚ) ≤ 6)⟩
  | zoomIn =>
      refine ⟨?_, ?_⟩ <;> simp only [step, zoomInClick, mathMin_eq]
      · exact le_min (by nlinarith) (by norm_num)
      · exact min_le_right _ _
  | zoomOut =>
      have hlo : 1 ≤ mathMax (s.scale / (6/5)) 1 := by
        rw [mathMax_eq]; exact le_max_right _ _
      have hhi : mathMax (s.scale / (6/5)) 1 ≤ 6 := by
        rw [mathMax_eq]
        refine max_le ?_ (by norm_num)
        rw [div_le_iff₀ (by norm_num : (0:ℚ) < 6/5)]
        linarith
      simp only [step, zoomOutClick]
      split <;> exact ⟨hlo, hhi⟩
  | mouseDown x y =>
      simp only [step, onMouseDown]
      split <;> exact ⟨h1, h6⟩
  | mouseMove x y =>
      simp only [step, onMouseMove]
      split <;> exact ⟨h1, h6⟩
  | mouseUp => exact ⟨h1, h6⟩
  | wheel cx cy rl rt dy =>
      simp only [step, onWheel]
      split <;> exact ⟨one_le_clampScale _, clampScale_le_six _⟩
  | pinchStart d t1x t1y t2x t2y rl rt => exact ⟨h1, h6⟩
  | dragTouchStart x y =>
      simp only [step, onTouchStart1]
      split <;> exact ⟨h1, h6⟩
  | pinchMove d t1x t1y t2x t2y rl rt =>
      simp only [step, onTouchMove2]
      split
      · split <;> exact ⟨one_le_clampScale _, clampScale_le_six _⟩
      · exact ⟨h1, h6⟩
  | dragTouchMove x y =>
      simp only [step, onTouchMove1]
      split <;> exact ⟨h1, h6⟩
  | touchEnd => exact ⟨h1, h6⟩

theorem runFrom_scaleBounded (ops : List Op) :
    ∀ s : VState, ScaleBounded s → ScaleBounded (runFrom s ops) := by
  induction ops with
  | nil => intro s h; exact h
  | cons op ops ih =>
      intro s h
      exact ih (step s op) (step_scaleBounded s op h)

/-! ### The unzoomed-centred invariant -/

theorem step_good (s : VState) (op : Op) (hs : GoodState s) (hm : MoveSafe s op) :
    GoodState (step s op) := by
  obtain ⟨h1, hc⟩ := hs
  cases op with
  | openImg w hh => exact ⟨le_refl 1, fun _ => ⟨rfl, rfl⟩⟩
  | zoomReset w hh => exact ⟨le_refl 1, fun _ => ⟨rfl, rfl⟩⟩
  | closeViewer w hh => exact ⟨le_refl 1, fun _ => ⟨rfl, rfl⟩⟩
  | zoomIn =>
      have hbig : (6:ℚ)/5 ≤ mathMin (s.scale * (6/5)) 6 := by
        rw [mathMin_eq]; exact le_min (by nlinarith) (by norm_num)
      refine ⟨?_, ?_⟩
      · simpa only [step, zoomInClick] using le_trans (by norm_num) hbig
      · intro hone
        simp only [step, zoomInClick] at hone
        rw [hone] at hbig
        norm_num at hbig
  | zoomOut =>
      simp only [step, zoomOutClick]
      split
      · next heq => exact ⟨le_of_eq heq.symm, fun _ => ⟨rfl, rfl⟩⟩
      · next hne =>
          refine ⟨?_, fun hone => absurd hone hne⟩
          rw [mathMax_eq]; exact le_max_right _ _
  | mouseDown x y =>
      simp only [step, onMouseDown]
      split
      · exact ⟨h1, hc⟩
      · exact ⟨h1, hc⟩
  | mouseMove x y =>
      simp only [step, onMouseMove]
      split
      · next hdrag => exact ⟨h1, fun hone => absurd hone (hm hdrag)⟩
      · exact ⟨h1, hc⟩
  | mouseUp => exact ⟨h1, hc⟩
  | wheel cx cy rl rt dy =>
      simp only [step, onWheel]
      split
      · exact ⟨one_le_clampScale _, fun _ => ⟨rfl, rfl⟩⟩
      · next hne => exact ⟨one_le_clampScale _, fun hone => absurd hone hne⟩
  | pinchStart d t1x t1y t2x t2y rl rt => exact ⟨h1, hc⟩
  | dragTouchStart x y =>
      simp only [step, onTouchStart1]
      split
      · exact ⟨h1, hc⟩
      · exact ⟨h1, hc⟩
  | pinchMove d t1x t1y t2x t2y rl rt =>
      simp only [step, onTouchMove2]
      split
      · split
        · exact ⟨one_le_clampScale _, fun _ => ⟨rfl, rfl⟩⟩
        · next hne => exact ⟨one_le_clampScale _, fun hone => absurd hone hne⟩
      · exact ⟨h1, hc⟩
  | dragTouchMove x y =>
      simp only [step, onTouchMove1]
      split
      · next hdrag => exact ⟨h1, fun hone => absurd hone (hm hdrag)⟩
      · exact ⟨h1, hc⟩
  | touchEnd => exact ⟨h1, hc⟩

theorem safeTrace_good (s : VState) (ops : List Op) (h : SafeTrace s ops)
    (hg : GoodState s) : GoodState (runFrom s ops) := by
  induction h with
  | nil s => exact hg
  | cons s op ops hm ht ih => exact ih (step_good s op hg hm)

end Birbs

namespace Birbs

/-! ### Claim theorems -/

/-- Claim C1 (counterexample): the invariant fails as stated.  Open an
image, zoom in to 6/5, press the mouse at (3,4) (drag starts, scale > 1),
wheel-zoom out twice (scale 6/5 → 27/25 → 1, translation zeroed), then move
the mouse to (10,10): the still-active drag sets the translation to (7,6)
while the scale is 1. -/
theorem drag_breaks_unzoomed_centering :
    (run c1Trace).scale = 1 ∧
    ¬((run c1Trace).posX = 0 ∧ (run c1Trace).posY = 0) := by
  norm_num [run, runFrom, c1Trace, List.foldl, step, resetTransform,
    zoomInClick, onMouseDown, onWheel, onMouseMove, clampScale, wheelDelta,
    mathMin, mathMax, initState]

/-- Claim C1 (amended): for every operation sequence from the initial state
in which no pointer-move event (mouse move or single-touch move) is
processed while a drag is active at scale 1, whenever the resulting scale
equals 1 the translation is (0,0). -/
theorem unzoomed_implies_centered_safe (ops : List Op)
    (h : SafeTrace initState ops) (h1 : (run ops).scale = 1) :
    (run ops).posX = 0 ∧ (run ops).posY = 0 :=
  (safeTrace_good initState ops h ⟨le_refl 1, fun _ => ⟨rfl, rfl⟩⟩).2 h1

/-- Witness for the amended claim C1 at the one-event trace `[openImg]`. -/
theorem unzoomed_implies_centered_safe_witness :
    (run [Op.openImg 100 100]).posX = 0 ∧ (run [Op.openImg 100 100]).posY = 0 :=
  unzoomed_implies_centered_safe [Op.openImg 100 100]
    (SafeTrace.cons _ _ _ trivial (SafeTrace.nil _)) rfl

/-- Claim C2 (confirmed): after any scale-mutating operation (zoom button,
wheel, pinch move) applied in any reachable state, the scale lies in
`[1, 6]`. -/
theorem scale_within_bounds (ops : List Op) (op : Op) (hop : ScaleMutating op) :
    1 ≤ (step (run ops) op).scale ∧ (step (run ops) op).scale ≤ 6 :=
  step_scaleBounded (run ops) op
    (runFrom_scaleBounded ops initState ⟨le_refl 1, (by norm_num : (1:ℚ) ≤ 6)⟩)

/-- Witness for claim C2: zoom-in from the initial state. -/
theorem scale_within_bounds_witness :
    1 ≤ (step (run []) Op.zoomIn).scale ∧ (step (run []) Op.zoomIn).scale ≤ 6 :=
  scale_within_bounds [] Op.zoomIn trivial

/-- Claim C3 (counterexample): under the CSS semantics of
`transform-origin: o; transform: translate(p) scale(k)` (content point `x`
lands at `p + (o + k (x − o))`), the content point at the transform origin
does not keep its screen position across the rescale.  With
origin 100, translation 50, scale 2 and new scale 11/5 (one zoom-in wheel
notch), the rescaled translation is 45 and the screen position of the
origin point moves from 150 to 145. -/
theorem origin_point_moves_under_rescale :
    rescaleCoord 50 100 2 (11/5) = 45 ∧
    cssScreenPos 100 50 2 100 = 150 ∧
    cssScreenPos 100 (rescaleCoord 50 100 2 (11/5)) (11/5) 100 = 145 ∧
    cssScreenPos 100 (rescaleCoord 50 100 2 (11/5)) (11/5) 100 ≠
      cssScreenPos 100 50 2 100 := by
  norm_num [rescaleCoord, cssScreenPos]

/-- Claim C3 (amended): the rescale formula keeps the screen position of
the point at the transform origin fixed when the transform is read as
translate-then-scale about the element corner (`screen x = pos + scale·x`,
the map under which the origin computed by the code is the screen offset
of the cursor): any
content point whose screen position equals the origin before the step keeps
exactly that screen position after it, on each coordinate axis. -/
theorem rescale_fixes_cursor_screen_point (origin pos scale newScale x : ℚ)
    (hs : scale ≠ 0) (hx : plainScreenPos pos scale x = origin) :
    plainScreenPos (rescaleCoord pos origin scale newScale) newScale x = origin := by
  unfold plainScreenPos rescaleCoord at *
  have h1 : scale * x = origin - pos := by linarith
  field_simp
  linear_combination newScale * h1

/-- Witness for the amended claim C3: origin 100, translation 50, scale 2,
new scale 11/5, content point 25. -/
theorem rescale_fixes_cursor_screen_point_witness :
    plainScreenPos (rescaleCoord 50 100 2 (11/5)) (11/5) 25 = 100 :=
  rescale_fixes_cursor_screen_point 100 50 2 (11/5) 25 (by norm_num)
    (by norm_num [plainScreenPos])

/-- Claim C4 (code bug): selecting a file twice without closing the dialog
leaves two object URLs live — the second `URL.createObjectURL` is not
preceded by a revocation of the first.  Moreover selecting then deselecting
and closing revokes nothing, because the close handler only revokes the URL
still assigned to the image. -/
theorem objectUrl_leak_on_reselect :
    (urun [UEvent.selectFile, UEvent.selectFile]).liveUrls = [1, 0] ∧
    (urun [UEvent.selectFile, UEvent.clearFile, UEvent.closeUpload]).liveUrls
      = [0] := by
  decide

/-- Claim C5 (counterexample): from scale 2, translation (50,50), the
zoom-out button yields scale 5/3 but does not rescale the translation by
`newScale / oldScale`: the translation stays 50, not `50 * (5/3) / 2`. -/
theorem zoomOut_does_not_rescale_translation :
    (zoomOutClick c5State).scale = 5/3 ∧
    (zoomOutClick c5State).posX ≠
      c5State.posX * ((zoomOutClick c5State).scale / c5State.scale) := by
  norm_num [zoomOutClick, c5State, initState, mathMax]

/-- Claim C5 (amended): from scale 2, translation (50,50), the zoom-out
button yields scale 2/1.2 = 5/3 ≠ 1 and leaves the translation unchanged at
(50,50): the button neither resets nor rescales the translation. -/
theorem zoomOut_example_state :
    (zoomOutClick c5State).scale = 5/3 ∧ (5:ℚ)/3 ≠ 1 ∧
    (zoomOutClick c5State).posX = 50 ∧ (zoomOutClick c5State).posY = 50 := by
  norm_num [zoomOutClick, c5State, initState, mathMax]

/-- Claim C6 (counterexample): after a pinch at scale 12/5 > 1, lifting one
finger fires `touchend`, which clears the dragging flag, so the subsequent
single-touch move to (30,40) is ignored — the final state equals the state
before the move and the translation is not touch − anchor. -/
theorem single_touch_after_pinch_ignored :
    (run c6Trace).scale = 12/5 ∧
    run c6Trace = run c6Trace.dropLast ∧
    ¬((run c6Trace).posX = 30 - (run c6Trace).startX ∧
      (run c6Trace).posY = 40 - (run c6Trace).startY) := by
  norm_num [run, runFrom, c6Trace, List.dropLast, List.foldl, step,
    resetTransform, zoomInClick, onTouchStart2, onTouchMove2, onTouchEnd,
    onTouchMove1, clampScale, mathMin, mathMax, initState]

/-- Claim C6 (amended): after `touchend` a single-touch move is a no-op;
single-touch panning resumes only once a new single-touch `touchstart`
happens with scale > 1, which re-anchors the drag, and a subsequent
single-touch move then sets the translation to touch − anchor. -/
theorem drag_resumes_after_new_touchstart (s : VState) (x y a b : ℚ) :
    onTouchMove1 x y (onTouchEnd s) = onTouchEnd s ∧
    (1 < s.scale →
      (onTouchMove1 x y (onTouchStart1 a b s)).posX = x - (a - s.posX) ∧
      (onTouchMove1 x y (onTouchStart1 a b s)).posY = y - (b - s.posY)) := by
  constructor
  · simp [onTouchMove1, onTouchEnd]
  · intro h
    simp [onTouchStart1, onTouchMove1, h]

/-- Witness for the amended claim C6 at a zoomed state with translation
(5,5), anchor touch (7,8) and move touch (30,40). -/
theorem drag_resumes_after_new_touchstart_witness :
    onTouchMove1 30 40 (onTouchEnd c6WitState) = onTouchEnd c6WitState ∧
    (onTouchMove1 30 40 (onTouchStart1 7 8 c6WitState)).posX = 30 - (7 - (5:ℚ)) ∧
    (onTouchMove1 30 40 (onTouchStart1 7 8 c6WitState)).posY = 40 - (8 - (5:ℚ)) :=
  ⟨(drag_resumes_after_new_touchstart c6WitState 30 40 7 8).1,
   ((drag_resumes_after_new_touchstart c6WitState 30 40 7 8).2
      (show (1:ℚ) < c6WitState.scale by norm_num [c6WitState])).1,
   ((drag_resumes_after_new_touchstart c6WitState 30 40 7 8).2
      (show (1:ℚ) < c6WitState.scale by norm_num [c6WitState])).2⟩

/-- Claim C7 (counterexample): the claimed factor `(d < 0 ? 1.1 : 0.9)`
disagrees with the coded `(deltaY > 0 ? 0.9 : 1.1)` at delta sign 0: on a
wheel event with `deltaY = 0` the code zooms in to 11/10 while the claimed
description clamps to 1. -/
theorem wheel_zero_delta_zooms_in :
    (onWheel 0 0 0 0 0 initState).scale = 11/10 ∧
    (specWheelClaimed 0 0 0 0 0 initState).scale = 1 ∧
    onWheel 0 0 0 0 0 initState ≠ specWheelClaimed 0 0 0 0 0 initState := by
  norm_num [onWheel, specWheelClaimed, clampScale, wheelDelta, mathMin,
    mathMax, initState]

/-- Claim C7 (amended): for every wheel event the handler sets the origin
to the cursor position relative to the image, sets the new scale to
`clamp(scale * (d > 0 ? 0.9 : 1.1), 1, 6)` — zooming in when the delta sign
is zero or negative — rescales the translation by `newScale/oldScale`
around the new origin, and zeroes the translation when the resulting scale
is 1.  The handler equals this description on every state and input. -/
theorem wheel_matches_spec_amended (cx cy rl rt dy : ℚ) (s : VState) :
    onWheel cx cy rl rt dy s = specWheelAmended cx cy rl rt dy s := rfl

/-- Claim C8 (confirmed): closing the viewer dialog, and likewise opening a
new image, resets the transform to the identity from every prior state:
scale 1 and translation (0,0). -/
theorem close_and_open_reset_identity (s : VState) (w h : ℚ) :
    (step s (Op.closeViewer w h)).scale = 1 ∧
    (step s (Op.closeViewer w h)).posX = 0 ∧
    (step s (Op.closeViewer w h)).posY = 0 ∧
    (step s (Op.openImg w h)).scale = 1 ∧
    (step s (Op.openImg w h)).posX = 0 ∧
    (step s (Op.openImg w h)).posY = 0 :=
  ⟨rfl, rfl, rfl, rfl, rfl, rfl⟩

/-- Claim C9 (confirmed): for every combination of present and absent DOM
elements, a controller whose required elements (file input, preview wrap,
preview image for the upload controller; viewer modal, viewer image, zoom
wrap for the viewer controller) are not all present registers nothing, and
neither initialisation ever throws. -/
theorem missing_elements_noop (input wrap img uploadModal vm vi zw zi zo zr : Bool) :
    ((input && wrap && img) = false →
      registered (uploadControllerInit input wrap img uploadModal) = []) ∧
    ((vm && vi && zw) = false →
      registered (viewerControllerInit vm vi zw zi zo zr) = []) ∧
    noThrow (uploadControllerInit input wrap img uploadModal) = true ∧
    noThrow (viewerControllerInit vm vi zw zi zo zr) = true := by
  revert input wrap img uploadModal vm vi zw zi zo zr
  decide

/-- Witness for claim C9: a missing file input and a missing viewer modal
make both controllers register nothing. -/
theorem missing_elements_noop_witness :
    registered (uploadControllerInit false true true true) = [] ∧
    registered (viewerControllerInit false true true true true true) = [] :=
  ⟨(missing_elements_noop false true true true false true true true true true).1 rfl,
   (missing_elements_noop false true true true false true true true true true).2.1 rfl⟩

/-- Claim C10 (confirmed): the zoom-reset button sets, from every prior
state, scale 1, translation (0,0) and the transform origin to the centre of
the image element (clientWidth/2, clientHeight/2). -/
theorem zoom_reset_button_resets (s : VState) (w h : ℚ) :
    step s (Op.zoomReset w h) =
      { s with scale := 1, posX := 0, posY := 0,
               originX := w / 2, originY := h / 2 } := rfl

end Birbs
